import Mathlib

/-!
Verification development for `state_of_cloud_report/main.py` of the
cloud-concierge repository.

The script loads five JSON extracts, aggregates them (via helper modules)
and composes a single markdown report.  We shallowly embed the script:

* the five loaded extracts are explicit Lean lists;
* a markdown document is a list of `MdItem`s (headers, text lines, tables);
* every failure mode of the Python run (missing input file, malformed JSON,
  `KeyError` / `TypeError` coming out of the pandas column arithmetic,
  `UnboundLocalError` for a Python local that was never assigned,
  `NameError` for a never-bound CLI parameter) is a `RunError`, and the
  run itself is a value of `Except RunError Report`: the report value is
  produced only when the whole composition succeeds, mirroring the single
  `create_md_file()` sink call at the very end of `create_markdown_file`.

The five helper modules imported by `main.py`
(`helpers/new_resources_and_cost_estimation.py`, `helpers/security_scanning.py`,
`helpers/managed_resource_drift.py`, `helpers/cloud_actor_identificaton.py`)
are part of the repository but their sources are not available here; each of
their functions is modelled from the spec (sections 4.2 - 4.6) and carries a
doc comment saying so.
-/

/-- A discovered out-of-IaC resource, e.g. the JSON record
`\x7b"type": "s3_bucket", "name": "x"\x7d` inside the
`new-resources-to-documents` extract. -/
structure NewResource where
  rtype : String
  name : String
deriving Repr, DecidableEq

/-- One attributed out-of-band change record from the
`resources-to-cloud-actions` extract. -/
structure ActorAction where
  actor : String
  action : String
deriving Repr, DecidableEq

/-- A priced (division, resource type) pair from the
`division-to-cost-estimates` extract. -/
structure CostEstimate where
  division : String
  rtype : String
  monthly : Int
deriving Repr, DecidableEq

/-- One record of the `drift-resources-differences` extract.  Each field is
an `Option` because a record of the raw JSON list may lack the key: a
missing key surfaces in pandas as an absent column (`KeyError`) or a `NaN`
cell (`TypeError` during string concatenation). -/
structure DriftRecord where
  ModuleName : Option String
  ResourceType : Option String
  ResourceName : Option String
deriving Repr, DecidableEq

/-- One item appended to the `MdUtils` document: `new_header`, `new_line`,
or a markdown table. -/
inductive MdItem where
  | header (level : Nat) (title : String)
  | line (text : String)
  | table (cols : List String) (rows : List (List String))
deriving Repr, DecidableEq

/-- The ways a run of the script can raise. -/
inductive RunError where
  | loadError (file : String)
  | keyError (key : String)
  | typeError
  | unboundLocal (var : String)
  | nameError (var : String)
deriving Repr, DecidableEq

/-- The finished markdown document handed to `create_md_file`: title
(`f"\x7bjob_name\x7d - State of Scanned Cloud Resources"`), the depth-1 table of
contents, and the body items in emission order. -/
structure Report where
  title : String
  toc : List String
  body : List MdItem
deriving Repr, DecidableEq

/-- Result of the five `open`/`json.loads` calls at the top of
`create_markdown_file` (lines 35-48): each file either parsed to a value or
raised (missing file / malformed JSON). -/
structure LoadedFiles where
  new_resources : Except RunError (List (String × List NewResource))
  resources_to_cloud_actions : Except RunError (List (String × List ActorAction))
  divisions_to_cost_estimates : Except RunError (List CostEstimate)
  divisions_to_security_scan : Except RunError (List (String × List String))
  managed_drift : Except RunError (List DriftRecord)

/-- The parsed extracts once all five loads succeeded. -/
structure Extracts where
  new_resources : List (String × List NewResource)
  resources_to_cloud_actions : List (String × List ActorAction)
  divisions_to_cost_estimates : List CostEstimate
  divisions_to_security_scan : List (String × List String)
  managed_drift : List DriftRecord

/-- Lines 35-48 of `main.py`: the five loads, in file order; the first
failing load aborts the run. -/
def loadExtracts (fs : LoadedFiles) : Except RunError Extracts :=
  match fs.new_resources with
  | Except.error e => Except.error e
  | Except.ok nr =>
    match fs.resources_to_cloud_actions with
    | Except.error e => Except.error e
    | Except.ok rta =>
      match fs.divisions_to_cost_estimates with
      | Except.error e => Except.error e
      | Except.ok ce =>
        match fs.divisions_to_security_scan with
        | Except.error e => Except.error e
        | Except.ok scan =>
          match fs.managed_drift with
          | Except.error e => Except.error e
          | Except.ok md => Except.ok ⟨nr, rta, ce, scan, md⟩

/-- Lines 52-59 of `main.py`: the `ResourcePath` column formula
`ModuleName + ' (module) "' + ResourceType + '" "' + ResourceName + '"'`
applied to one row whose three fields are present. -/
def resourcePath (m t n : String) : String :=
  m ++ " (module) \"" ++ t ++ "\" \"" ++ n ++ "\""

/-- Lines 52-59 of `main.py`, whole-column view.  pandas semantics for a
list of dicts: a key held by no record gives no column at all, so the
column lookup raises `KeyError`; a key held by only some records gives a
column with `NaN` holes, and `NaN + str` raises `TypeError` during the
concatenation.  The checks appear in the evaluation order of the Python
expression (`ModuleName` lookup, first `+`, `ResourceType` lookup, ...). -/
def driftPathColumn (records : List DriftRecord) : Except RunError (List String) :=
  if records.all (fun r => r.ModuleName.isNone) then
    Except.error (RunError.keyError "ModuleName")
  else if records.any (fun r => r.ModuleName.isNone) then
    Except.error RunError.typeError
  else if records.all (fun r => r.ResourceType.isNone) then
    Except.error (RunError.keyError "ResourceType")
  else if records.any (fun r => r.ResourceType.isNone) then
    Except.error RunError.typeError
  else if records.all (fun r => r.ResourceName.isNone) then
    Except.error (RunError.keyError "ResourceName")
  else if records.any (fun r => r.ResourceName.isNone) then
    Except.error RunError.typeError
  else
    Except.ok (records.map (fun r =>
      resourcePath (r.ModuleName.getD "") (r.ResourceType.getD "") (r.ResourceName.getD "")))

/-- Lines 50-61 of `main.py`: `managed_drift_df` with its derived
`ResourcePath` column, or the empty frame when the extract list is empty. -/
def driftDf (records : List DriftRecord) : Except RunError (List (DriftRecord × String)) :=
  if records.isEmpty then Except.ok []
  else
    match driftPathColumn records with
    | Except.error e => Except.error e
    | Except.ok paths => Except.ok (records.zip paths)

/-- Add `v` to the entry of key `k` of an association list, appending a new
entry when the key is absent (helper for the spec-modelled aggregators). -/
def upsert (acc : List (String × Int)) (k : String) (v : Int) : List (String × Int) :=
  match acc with
  | [] => [(k, v)]
  | (k0, v0) :: rest =>
    if k0 = k then (k0, v0 + v) :: rest else (k0, v0) :: upsert rest k v

/-- Nat-valued variant of `upsert`. -/
def upsertNat (acc : List (String × Nat)) (k : String) (v : Nat) : List (String × Nat) :=
  match acc with
  | [] => [(k, v)]
  | (k0, v0) :: rest =>
    if k0 = k then (k0, v0 + v) :: rest else (k0, v0) :: upsertNat rest k v

/-- Modelled from the spec (section 4.2); the source
`helpers/new_resources_and_cost_estimation.py` is not available.  Groups the
discovered out-of-IaC resources into one count table per breakdown
dimension (by division and by resource type); every division present in the
raw extract appears in the by-division table, so the output mapping is
non-empty whenever it is computed. -/
def process_new_resources (new_resources : List (String × List NewResource)) :
    List (String × List (String × Nat)) :=
  [("resource_count_by_division",
    new_resources.map (fun p => (p.1, p.2.length))),
   ("resource_count_by_type",
    (new_resources.foldr (fun p acc => p.2 ++ acc) []).foldl
      (fun acc r => upsertNat acc r.rtype 1) [])]

/-- Modelled from the spec (section 4.6); the source
`helpers/cloud_actor_identificaton.py` is not available.  Deduplicates
(actor, resource, action) triples, counts per actor, and orders by
descending count with ties broken by ascending actor name. -/
def process_cloud_actor_actions
    (resources_to_cloud_actions : List (String × List ActorAction)) :
    List (String × Nat) :=
  let triples :=
    resources_to_cloud_actions.foldr
      (fun p acc => p.2.map (fun a => (a.actor, p.1, a.action)) ++ acc) []
  let deduped :=
    triples.foldl (fun acc x => if x ∈ acc then acc else acc ++ [x]) []
  let counts := deduped.foldl (fun acc x => upsertNat acc x.1 1) []
  counts.foldl
    (fun sorted p =>
      let rec ins (q : String × Nat) : List (String × Nat) → List (String × Nat)
        | [] => [q]
        | r :: rest =>
          if q.2 > r.2 ∨ (q.2 = r.2 ∧ q.1 < r.1) then q :: r :: rest
          else r :: ins q rest
      ins p sorted) []

/-- The pair of tables produced by the cost aggregator: the
`"cost_summary"` and `"uncontrolled_cost_by_div_by_type_df"` entries of the
dict `process_pricing_data` returns. -/
structure CostSummaryDict where
  cost_summary : List (String × Int)
  uncontrolled_cost_by_div_by_type_df : List (String × String × Int)
deriving Repr, DecidableEq

/-- Modelled from the spec (section 4.3); the source
`helpers/new_resources_and_cost_estimation.py` is not available.  Produces a
per-resource-type monthly cost table and a per-division-per-type table
restricted to the uncontrolled resources present in the new-resources
extract. -/
def process_pricing_data (divisions_to_cost_estimates : List CostEstimate)
    (new_resources : List (String × List NewResource)) : CostSummaryDict :=
  { cost_summary :=
      divisions_to_cost_estimates.foldl (fun acc e => upsert acc e.rtype e.monthly) []
    uncontrolled_cost_by_div_by_type_df :=
      (divisions_to_cost_estimates.filter (fun e =>
        ((new_resources.lookup e.division).getD []).any (fun r => r.rtype = e.rtype))).map
        (fun e => (e.division, e.rtype, e.monthly)) }

/-- Modelled from the spec (section 4.5); the source
`helpers/security_scanning.py` is not available.  Converts the
division-to-findings mapping into one findings table per division,
preserving the source iteration order. -/
def division_to_security_scan_to_df_dict
    (divisions_to_security_scan : List (String × List String)) :
    List (String × List (List String)) :=
  divisions_to_security_scan.map (fun p => (p.1, p.2.map (fun f => [f])))

/-- Modelled from the spec (sections 4.5 and 4.7); renders, for every
division of the dict in order, a level-2 heading followed by that
division's findings table (empty findings give an empty table under the
heading). -/
def create_markdown_table_security_scans :
    List (String × List (List String)) → List MdItem
  | [] => []
  | p :: rest =>
    MdItem.header 2 p.1 :: MdItem.table ["Security Risk"] p.2 ::
      create_markdown_table_security_scans rest

/-- Modelled from the spec (section 4.7): renders the per-resource-type
monthly cost table. -/
def create_markdown_table_cost_summary (cost_summary : List (String × Int)) :
    List MdItem :=
  [MdItem.table ["Resource Type", "Monthly Cost"]
    (cost_summary.map (fun p => [p.1, toString p.2]))]

/-- Total cost attributed to a resource type in the uncontrolled
per-division-per-type table (helper for the joined breakdown). -/
def costForType (df : List (String × String × Int)) (t : String) : Int :=
  (df.filter (fun e => e.2.1 = t)).foldl (fun acc e => acc + e.2.2) 0

/-- Modelled from the spec (sections 4.2 and 4.7); renders one level-2
heading and count table per breakdown dimension, joining in a per-type cost
column when the cost table is non-empty and omitting the cost column
otherwise. -/
def create_new_resource_tabular_breakdowns_with_cost :
    List (String × List (String × Nat)) → List (String × String × Int) → List MdItem
  | [], _ => []
  | p :: rest, costDf =>
    MdItem.header 2 p.1 ::
      MdItem.table
        (if costDf.isEmpty then ["Resource", "Count"]
         else ["Resource", "Count", "Monthly Cost"])
        (p.2.map (fun row =>
          if costDf.isEmpty then [row.1, toString row.2]
          else [row.1, toString row.2, toString (costForType costDf row.1)])) ::
      create_new_resource_tabular_breakdowns_with_cost rest costDf

/-- Modelled from the spec (section 4.4); the source
`helpers/managed_resource_drift.py` is not available.  Groups the field
differences of each drifted managed resource under its derived
`ResourcePath` heading. -/
def create_managed_drift_markdown : List (DriftRecord × String) → List MdItem
  | [] => []
  | p :: rest =>
    MdItem.header 2 p.2 ::
      MdItem.table ["ModuleName", "ResourceType", "ResourceName"]
        [[p.1.ModuleName.getD "", p.1.ResourceType.getD "", p.1.ResourceName.getD ""]] ::
      create_managed_drift_markdown rest

/-- Modelled from the spec (section 4.6); renders the actor action-count
table (the Python function also returns a second value, discarded by
`main.py` at line 151). -/
def create_markdown_table_cloud_actor_summary
    (actor_action_count_df : List (String × Nat)) : List MdItem :=
  [MdItem.table ["Cloud Actor", "Action Count"]
    (actor_action_count_df.map (fun p => [p.1, toString p.2]))]

/-- Local-time components handed to `datetime.now()`; only the fields the
report's `strftime('%H:%M UTC on %Y-%m-%d')` call reads. -/
structure DateTimeParts where
  hour : Nat
  minute : Nat
  year : Nat
  month : Nat
  day : Nat
deriving Repr, DecidableEq

/-- The decimal digit character of `n % 10` (models C / Python `strftime`
zero-padded decimal output one position at a time). -/
def digitChar (n : Nat) : Char := Char.ofNat (48 + n % 10)

/-- `strftime` two-digit zero-padded field (`%H`, `%M`, `%m`, `%d`). -/
def fmt2 (n : Nat) : String := String.mk [digitChar (n / 10), digitChar n]

/-- `strftime` four-digit zero-padded year (`%Y` for years below 10000). -/
def fmt4 (n : Nat) : String :=
  String.mk [digitChar (n / 1000), digitChar (n / 100), digitChar (n / 10), digitChar n]

/-- Line 172 of `main.py`:
`datetime.now().strftime('%H:%M UTC on %Y-%m-%d')`. -/
def strftimeReport (t : DateTimeParts) : String :=
  fmt2 t.hour ++ ":" ++ fmt2 t.minute ++ " UTC on " ++ fmt4 t.year ++ "-" ++
    fmt2 t.month ++ "-" ++ fmt2 t.day

/-- Decides whether a string is exactly of the shape
`HH:MM UTC on YYYY-MM-DD` (two digits, colon, two digits, the literal
` UTC on `, then a four-digit year, dash, two-digit month, dash, two-digit
day). -/
def matchesTimestampFormat (s : String) : Bool :=
  match s.data with
  | [h1, h2, c1, m1, m2, s1, u1, u2, u3, s2, o1, o2, s3,
     y1, y2, y3, y4, d1, mo1, mo2, d2, da1, da2] =>
    h1.isDigit && h2.isDigit && (c1 == ':') && m1.isDigit && m2.isDigit &&
      (s1 == ' ') && (u1 == 'U') && (u2 == 'T') && (u3 == 'C') && (s2 == ' ') &&
      (o1 == 'o') && (o2 == 'n') && (s3 == ' ') &&
      y1.isDigit && y2.isDigit && y3.isDigit && y4.isDigit && (d1 == '-') &&
      mo1.isDigit && mo2.isDigit && (d2 == '-') && da1.isDigit && da2.isDigit
  | _ => false

/-- Lines 84-90 of `main.py`: the introduction paragraph (the adjacent
Python string literals concatenated, with `job_name` interpolated). -/
def introLine (job_name : String) : String :=
  "Your job, titled " ++ job_name ++
    ", has run. Of the resources the job scans, at least one resource was identified to have drifted or be outside of Terraform control. While code has been generated of the Terraform code and corresponding import statements needed to bring these resources under Terraform control, below you will find a summary of the gaps identified in your current IaC posture."

/-- Lines 83-90 of `main.py`: the `How to Read this Report` section. -/
def introSection (job_name : String) : List MdItem :=
  [MdItem.header 1 "How to Read this Report", MdItem.line (introLine job_name)]

/-- Lines 92-103 of `main.py`: the `Identified Security Risks` section:
the placeholder sentence when the loaded mapping is falsy, the per-division
tables otherwise. -/
def securitySection (divisions_to_security_scan : List (String × List String)) :
    List MdItem :=
  MdItem.header 1 "Identified Security Risks" ::
    (if divisions_to_security_scan.isEmpty then
      [MdItem.line "Security scan not run."]
    else
      create_markdown_table_security_scans
        (division_to_security_scan_to_df_dict divisions_to_security_scan))

/-- Lines 105-114 of `main.py`: the `Calculable Cloud Costs (Monthly)`
section.  The option is the Python local `cost_summary_dict_of_dfs`,
`some` exactly when the cost branch of line 72 ran. -/
def costSection (cost_summary_dict_of_dfs : Option CostSummaryDict) : List MdItem :=
  MdItem.header 1 "Calculable Cloud Costs (Monthly)" ::
    (match cost_summary_dict_of_dfs with
    | some cs => create_markdown_table_cost_summary cs.cost_summary
    | none => [MdItem.line "Cost estimation not run."])

/-- Lines 120-131 of `main.py`: the body of the
`Resources Outside of Terraform Control` section.  When the count dict is
non-empty the Python expression
`cost_summary_dict_of_dfs[...] if cost_summary_dict_of_dfs else pd.DataFrame()`
reads the local `cost_summary_dict_of_dfs`; that local is assigned only
inside `if divisions_to_cost_estimates:` (line 72), so when the cost
extract was empty the read raises `UnboundLocalError`. -/
def resourcesSectionBody (resource_count_dict_of_dfs : List (String × List (String × Nat)))
    (cost_summary_dict_of_dfs : Option CostSummaryDict) :
    Except RunError (List MdItem) :=
  if resource_count_dict_of_dfs.length > 0 then
    match cost_summary_dict_of_dfs with
    | none => Except.error (RunError.unboundLocal "cost_summary_dict_of_dfs")
    | some cs =>
      Except.ok (create_new_resource_tabular_breakdowns_with_cost
        resource_count_dict_of_dfs cs.uncontrolled_cost_by_div_by_type_df)
  else Except.ok [MdItem.line "No new resources found!"]

/-- Lines 133-142 of `main.py`: the `Drifted Resources Managed By
Terraform` section. -/
def driftSection (managed_drift_df : List (DriftRecord × String)) : List MdItem :=
  MdItem.header 1 "Drifted Resources Managed By Terraform" ::
    (if managed_drift_df.isEmpty then
      [MdItem.line "No controlled resources have drifted!"]
    else create_managed_drift_markdown managed_drift_df)

/-- Lines 144-156 of `main.py`: the `Root Causes of Drift` section, with
its unconditional level-2 sub-heading.  The option is the Python local
`actor_action_count_df`, `some` exactly when line 67's branch ran, which
coincides with the `if resources_to_cloud_actions:` guard of line 150. -/
def rootSection (actor_action_count_df : Option (List (String × Nat))) : List MdItem :=
  MdItem.header 1 "Root Causes of Drift" ::
    MdItem.header 2 "Cloud Actors Causing Changes" ::
      (match actor_action_count_df with
      | some df => create_markdown_table_cloud_actor_summary df
      | none => [MdItem.line "No identified Cloud Actor actions."])

/-- Lines 158-173 of `main.py`: disclaimer block and generation timestamp
(`new_line()` with no argument is an empty line). -/
def disclaimerSection (now : DateTimeParts) : List MdItem :=
  [MdItem.header 4 "Disclaimer",
   MdItem.line "*Indicates that a resource\x27s cost is usage based. Since we currently do not infer/have knowledge of usage, costs may be material although indicated as 0 here.",
   MdItem.line "",
   MdItem.line "This report presents information on the state of your cloud at a point in time and as best Cloud Concierge is able to determine. Cloud Concierge does not currently scan every cloud resource for every  cloud provider. For a list of supported resources, please see our [documentation](https://www.docs.dragondrop.cloud/).",
   MdItem.line "",
   MdItem.line ("Created by Cloud Concierge at " ++ strftimeReport now)]

/-- The title of a level-1 header, `none` for every other item. -/
def isLevel1? : MdItem → Option String
  | MdItem.header 1 t => some t
  | _ => none

/-- The depth-1 table of contents of line 175: the titles of the level-1
headers (the headers added with `add_table_of_contents="n"` are at levels 2
and 4 and are outside depth 1 anyway). -/
def level1Titles (items : List MdItem) : List String :=
  items.filterMap isLevel1?

/-- The Python local `cost_summary_dict_of_dfs` after lines 72-76: bound
exactly when the cost extract is truthy. -/
def costOptOf (ex : Extracts) : Option CostSummaryDict :=
  if ex.divisions_to_cost_estimates.isEmpty then none
  else some (process_pricing_data ex.divisions_to_cost_estimates ex.new_resources)

/-- The Python local `actor_action_count_df` after lines 67-70: bound
exactly when the cloud-actions extract is truthy. -/
def actorOptOf (ex : Extracts) : Option (List (String × Nat)) :=
  if ex.resources_to_cloud_actions.isEmpty then none
  else some (process_cloud_actor_actions ex.resources_to_cloud_actions)

/-- Lines 50-177 of `main.py` after the loads: drift-frame construction,
the three aggregator guards, section assembly in source order, then the
single `create_md_file()` sink call, modelled as returning the finished
`Report` only when every stage succeeded. -/
def composeReport (job_name : String) (ex : Extracts) (now : DateTimeParts) :
    Except RunError Report :=
  match driftDf ex.managed_drift with
  | Except.error e => Except.error e
  | Except.ok managed_drift_df =>
    let resource_count_dict_of_dfs :=
      if ex.new_resources.length > 0 then process_new_resources ex.new_resources
      else []
    match resourcesSectionBody resource_count_dict_of_dfs (costOptOf ex) with
    | Except.error e => Except.error e
    | Except.ok resBody =>
      let body :=
        introSection job_name ++
        securitySection ex.divisions_to_security_scan ++
        costSection (costOptOf ex) ++
        (MdItem.header 1 "Resources Outside of Terraform Control" :: resBody) ++
        driftSection managed_drift_df ++
        rootSection (actorOptOf ex) ++
        disclaimerSection now
      Except.ok
        { title := job_name ++ " - State of Scanned Cloud Resources"
          toc := level1Titles body
          body := body }

/-- The whole of `create_markdown_file` (lines 33-177): the five loads,
then the aggregation and composition. -/
def create_markdown_file (job_name : String) (fs : LoadedFiles)
    (now : DateTimeParts) : Except RunError Report :=
  match loadExtracts fs with
  | Except.error e => Except.error e
  | Except.ok ex => composeReport job_name ex now

/-- Lines 186-190 of `main.py`: the `for opt, arg in opts` loop binding the
two locals (`none` = the Python name stays unbound). -/
def bindOpts (opts : List (String × String)) : Option String × Option String :=
  opts.foldl
    (fun acc p =>
      let acc1 :=
        if p.1 = "-i" ∨ p.1 = "--job_unique_id" then (some p.2, acc.2) else acc
      if p.1 = "-j" ∨ p.1 = "--job_name" then (acc1.1, some p.2) else acc1)
    (none, none)

/-- The `str(e)` rendering of each modelled exception (stdlib detail,
summarised per constructor). -/
def errorText : RunError → String
  | RunError.loadError f => "cannot load " ++ f
  | RunError.keyError k => k
  | RunError.typeError => "can only concatenate str (not float) to str"
  | RunError.unboundLocal v => "local variable " ++ v ++ " referenced before assignment"
  | RunError.nameError v => "name " ++ v ++ " is not defined"

/-- Line 202 of `main.py`: `raise Exception(f"Error: \x7be\x7d")` — the single
wrapped error message of a failed run. -/
def wrapError (e : RunError) : String := "Error: " ++ errorText e

/-- Lines 180-202 of `main.py` (`__main__`): bind the parsed options,
then call `create_markdown_file`; referencing the never-bound `job_name`
raises `NameError`, and any exception is re-raised once, wrapped.  The
result is `Except.ok` with the written report, or `Except.error` with the
single wrapped message (the process then exits non-zero with no report
written). -/
def main_block (opts : List (String × String)) (fs : LoadedFiles)
    (now : DateTimeParts) : Except String Report :=
  match (bindOpts opts).2 with
  | none => Except.error (wrapError (RunError.nameError "job_name"))
  | some job_name =>
    match create_markdown_file job_name fs now with
    | Except.error e => Except.error (wrapError e)
    | Except.ok rep => Except.ok rep

/-- `LoadedFiles` in which all five loads succeeded with the given
extracts. -/
def okLoads (ex : Extracts) : LoadedFiles :=
  { new_resources := Except.ok ex.new_resources
    resources_to_cloud_actions := Except.ok ex.resources_to_cloud_actions
    divisions_to_cost_estimates := Except.ok ex.divisions_to_cost_estimates
    divisions_to_security_scan := Except.ok ex.divisions_to_security_scan
    managed_drift := Except.ok ex.managed_drift }

/-- All five extracts loaded and empty. -/
def emptyExtracts : Extracts := ⟨[], [], [], [], []⟩

/-- A fixed wall-clock instant used by concrete witnesses. -/
def sampleNow : DateTimeParts := ⟨9, 5, 2026, 10, 12⟩

/-- Extract the report of a successful run (used only by concrete
witnesses, always applied to runs proved successful). -/
def reportOf (x : Except RunError Report) : Report :=
  match x with
  | Except.ok r => r
  | Except.error _ => ⟨"", [], []⟩

/-- The extracts of the spec's own test scenario: one discovered resource
(`\x7b"aws": [\x7b"type": "s3_bucket", "name": "x"\x7d]\x7d`) and every other extract
empty. -/
def c1Extracts : Extracts := ⟨[("aws", [⟨"s3_bucket", "x"⟩])], [], [], [], []⟩

/-- A second combination with a non-empty new-resources extract and an
empty cost extract. -/
def c2Extracts : Extracts := ⟨[("gcp", [⟨"storage_bucket", "b"⟩])], [], [], [], []⟩

/-- Loads in which the very first file (`new-resources-to-documents.json`)
fails to load and all others succeed. -/
def failLoads : LoadedFiles :=
  { new_resources := Except.error (RunError.loadError "mappings/new-resources-to-documents.json")
    resources_to_cloud_actions := Except.ok []
    divisions_to_cost_estimates := Except.ok []
    divisions_to_security_scan := Except.ok []
    managed_drift := Except.ok [] }

/-- The report of the all-empty run (used by concrete witnesses). -/
def emptyRunReport : Report :=
  reportOf (create_markdown_file "j" (okLoads emptyExtracts) sampleNow)

/-! ## Basic lemmas about the embedding -/

theorem isLevel1_header1 (t : String) : isLevel1? (MdItem.header 1 t) = some t := rfl

theorem isLevel1_header2 (t : String) : isLevel1? (MdItem.header 2 t) = none := rfl

theorem isLevel1_header4 (t : String) : isLevel1? (MdItem.header 4 t) = none := rfl

theorem isLevel1_line (s : String) : isLevel1? (MdItem.line s) = none := rfl

theorem isLevel1_table (c : List String) (r : List (List String)) :
    isLevel1? (MdItem.table c r) = none := rfl

theorem level1Titles_nil : level1Titles [] = [] := rfl

theorem level1Titles_append (a b : List MdItem) :
    level1Titles (a ++ b) = level1Titles a ++ level1Titles b :=
  List.filterMap_append a b isLevel1?

theorem level1Titles_cons (i : MdItem) (rest : List MdItem) :
    level1Titles (i :: rest) =
      (match isLevel1? i with
       | some t => t :: level1Titles rest
       | none => level1Titles rest) := by
  unfold level1Titles
  rw [List.filterMap_cons]
  cases isLevel1? i <;> rfl

theorem level1Titles_security_tables (d : List (String × List (List String))) :
    level1Titles (create_markdown_table_security_scans d) = [] := by
  induction d with
  | nil => rfl
  | cons p rest ih =>
    rw [create_markdown_table_security_scans, level1Titles_cons, isLevel1_header2,
      level1Titles_cons, isLevel1_table, ih]

theorem level1Titles_new_resource_tables
    (c : List (String × List (String × Nat))) (df : List (String × String × Int)) :
    level1Titles (create_new_resource_tabular_breakdowns_with_cost c df) = [] := by
  induction c with
  | nil => rfl
  | cons p rest ih =>
    rw [create_new_resource_tabular_breakdowns_with_cost, level1Titles_cons,
      isLevel1_header2, level1Titles_cons, isLevel1_table, ih]

theorem level1Titles_managed_drift (df : List (DriftRecord × String)) :
    level1Titles (create_managed_drift_markdown df) = [] := by
  induction df with
  | nil => rfl
  | cons p rest ih =>
    rw [create_managed_drift_markdown, level1Titles_cons, isLevel1_header2,
      level1Titles_cons, isLevel1_table, ih]

theorem level1Titles_intro (jn : String) :
    level1Titles (introSection jn) = ["How to Read this Report"] := rfl

theorem level1Titles_security (scan : List (String × List String)) :
    level1Titles (securitySection scan) = ["Identified Security Risks"] := by
  unfold securitySection
  split
  · rfl
  · rw [level1Titles_cons, isLevel1_header1, level1Titles_security_tables]

theorem level1Titles_cost (o : Option CostSummaryDict) :
    level1Titles (costSection o) = ["Calculable Cloud Costs (Monthly)"] := by
  cases o <;> rfl

theorem level1Titles_drift (df : List (DriftRecord × String)) :
    level1Titles (driftSection df) = ["Drifted Resources Managed By Terraform"] := by
  unfold driftSection
  split
  · rfl
  · rw [level1Titles_cons, isLevel1_header1, level1Titles_managed_drift]

theorem level1Titles_root (o : Option (List (String × Nat))) :
    level1Titles (rootSection o) = ["Root Causes of Drift"] := by
  cases o <;> rfl

theorem level1Titles_disclaimer (now : DateTimeParts) :
    level1Titles (disclaimerSection now) = [] := rfl

theorem loadExtracts_okLoads (ex : Extracts) : loadExtracts (okLoads ex) = Except.ok ex := rfl

theorem loadExtracts_ok (fs : LoadedFiles) (ex : Extracts)
    (h : loadExtracts fs = Except.ok ex) :
    fs.new_resources = Except.ok ex.new_resources ∧
    fs.resources_to_cloud_actions = Except.ok ex.resources_to_cloud_actions ∧
    fs.divisions_to_cost_estimates = Except.ok ex.divisions_to_cost_estimates ∧
    fs.divisions_to_security_scan = Except.ok ex.divisions_to_security_scan ∧
    fs.managed_drift = Except.ok ex.managed_drift := by
  unfold loadExtracts at h
  cases h1 : fs.new_resources <;> rw [h1] at h
  · exact Except.noConfusion h
  cases h2 : fs.resources_to_cloud_actions <;> rw [h2] at h
  · exact Except.noConfusion h
  cases h3 : fs.divisions_to_cost_estimates <;> rw [h3] at h
  · exact Except.noConfusion h
  cases h4 : fs.divisions_to_security_scan <;> rw [h4] at h
  · exact Except.noConfusion h
  cases h5 : fs.managed_drift <;> rw [h5] at h
  · exact Except.noConfusion h
  injection h with h
  subst h
  exact ⟨rfl, rfl, rfl, rfl, rfl⟩

theorem isSome_not_isNone (o : Option String) (h : o.isSome = true) : o.isNone = false := by
  cases o with
  | none => exact absurd h (by simp)
  | some v => rfl

theorem driftPathColumn_ok (l : List DriftRecord) (hne : l ≠ [])
    (hwf : ∀ r ∈ l, r.ModuleName.isSome ∧ r.ResourceType.isSome ∧ r.ResourceName.isSome) :
    driftPathColumn l = Except.ok (l.map (fun r =>
      resourcePath (r.ModuleName.getD "") (r.ResourceType.getD "") (r.ResourceName.getD ""))) := by
  obtain ⟨r0, hr0⟩ : ∃ r, r ∈ l := by
    cases l with
    | nil => exact absurd rfl hne
    | cons a t => exact ⟨a, List.mem_cons_self a t⟩
  have hMN : l.any (fun r => r.ModuleName.isNone) = false := by
    rw [List.any_eq_false]
    intro r hr
    simp [isSome_not_isNone _ (hwf r hr).1]
  have hRT : l.any (fun r => r.ResourceType.isNone) = false := by
    rw [List.any_eq_false]
    intro r hr
    simp [isSome_not_isNone _ (hwf r hr).2.1]
  have hRN : l.any (fun r => r.ResourceName.isNone) = false := by
    rw [List.any_eq_false]
    intro r hr
    simp [isSome_not_isNone _ (hwf r hr).2.2]
  have gMN : l.all (fun r => r.ModuleName.isNone) = false := by
    cases hall : l.all (fun r => r.ModuleName.isNone) with
    | false => rfl
    | true =>
      rw [List.all_eq_true] at hall
      have h1 := hall r0 hr0
      rw [isSome_not_isNone _ (hwf r0 hr0).1] at h1
      exact absurd h1 (by simp)
  have gRT : l.all (fun r => r.ResourceType.isNone) = false := by
    cases hall : l.all (fun r => r.ResourceType.isNone) with
    | false => rfl
    | true =>
      rw [List.all_eq_true] at hall
      have h1 := hall r0 hr0
      rw [isSome_not_isNone _ (hwf r0 hr0).2.1] at h1
      exact absurd h1 (by simp)
  have gRN : l.all (fun r => r.ResourceName.isNone) = false := by
    cases hall : l.all (fun r => r.ResourceName.isNone) with
    | false => rfl
    | true =>
      rw [List.all_eq_true] at hall
      have h1 := hall r0 hr0
      rw [isSome_not_isNone _ (hwf r0 hr0).2.2] at h1
      exact absurd h1 (by simp)
  unfold driftPathColumn
  simp [hMN, hRT, hRN, gMN, gRT, gRN]

theorem driftPathColumn_missing_field (l : List DriftRecord) (r : DriftRecord)
    (hr : r ∈ l)
    (hbad : r.ModuleName = none ∨ r.ResourceType = none ∨ r.ResourceName = none) :
    ∃ e, driftPathColumn l = Except.error e := by
  unfold driftPathColumn
  split
  · exact ⟨_, rfl⟩
  split
  · exact ⟨_, rfl⟩
  split
  · exact ⟨_, rfl⟩
  split
  · exact ⟨_, rfl⟩
  split
  · exact ⟨_, rfl⟩
  split
  · exact ⟨_, rfl⟩
  exfalso
  rename_i h1 h2 h3 h4 h5 h6
  rcases hbad with hb | hb | hb
  · exact h2 (by rw [List.any_eq_true]; exact ⟨r, hr, by simp [hb]⟩)
  · exact h4 (by rw [List.any_eq_true]; exact ⟨r, hr, by simp [hb]⟩)
  · exact h6 (by rw [List.any_eq_true]; exact ⟨r, hr, by simp [hb]⟩)

theorem composeReport_ok_body (jn : String) (ex : Extracts) (now : DateTimeParts)
    (rep : Report) (h : composeReport jn ex now = Except.ok rep) :
    ∃ mdf resBody,
      driftDf ex.managed_drift = Except.ok mdf ∧
      resourcesSectionBody
        (if ex.new_resources.length > 0 then process_new_resources ex.new_resources else [])
        (costOptOf ex) = Except.ok resBody ∧
      rep.body =
        introSection jn ++
        securitySection ex.divisions_to_security_scan ++
        costSection (costOptOf ex) ++
        (MdItem.header 1 "Resources Outside of Terraform Control" :: resBody) ++
        driftSection mdf ++
        rootSection (actorOptOf ex) ++
        disclaimerSection now := by
  unfold composeReport at h
  cases h1 : driftDf ex.managed_drift <;> rw [h1] at h
  · exact Except.noConfusion h
  case ok mdf =>
  simp only [] at h
  cases h2 : resourcesSectionBody
      (if ex.new_resources.length > 0 then process_new_resources ex.new_resources else [])
      (costOptOf ex) <;> rw [h2] at h
  · exact Except.noConfusion h
  case ok resBody =>
  injection h with h
  subst h
  exact ⟨mdf, resBody, rfl, rfl, rfl⟩

theorem digitChar_isDigit (n : Nat) : (digitChar n).isDigit = true := by
  have h : n % 10 < 10 := Nat.mod_lt _ (by norm_num)
  unfold digitChar
  set k := n % 10 with hk
  interval_cases k <;> rfl

theorem strftimeReport_data (t : DateTimeParts) :
    (strftimeReport t).data =
      [digitChar (t.hour / 10), digitChar t.hour, ':',
       digitChar (t.minute / 10), digitChar t.minute,
       ' ', 'U', 'T', 'C', ' ', 'o', 'n', ' ',
       digitChar (t.year / 1000), digitChar (t.year / 100),
       digitChar (t.year / 10), digitChar t.year, '-',
       digitChar (t.month / 10), digitChar t.month, '-',
       digitChar (t.day / 10), digitChar t.day] := rfl

theorem strftimeReport_matches (t : DateTimeParts) :
    matchesTimestampFormat (strftimeReport t) = true := by
  simp only [matchesTimestampFormat, strftimeReport_data]
  simp [digitChar_isDigit]

theorem resourcesSectionBody_empty (o : Option CostSummaryDict) :
    resourcesSectionBody [] o = Except.ok [MdItem.line "No new resources found!"] := rfl

theorem resourcesSectionBody_some (c : List (String × List (String × Nat)))
    (cs : CostSummaryDict) :
    resourcesSectionBody c (some cs) =
      Except.ok (if c.length > 0 then
        create_new_resource_tabular_breakdowns_with_cost c
          cs.uncontrolled_cost_by_div_by_type_df
      else [MdItem.line "No new resources found!"]) := by
  unfold resourcesSectionBody
  split
  · rfl
  · rfl

theorem driftDf_nil : driftDf [] = Except.ok [] := rfl

theorem driftDf_wf (l : List DriftRecord)
    (hwf : ∀ r ∈ l, r.ModuleName.isSome ∧ r.ResourceType.isSome ∧ r.ResourceName.isSome) :
    driftDf l = Except.ok (l.zip (l.map (fun r =>
      resourcePath (r.ModuleName.getD "") (r.ResourceType.getD "") (r.ResourceName.getD "")))) := by
  cases hl : l with
  | nil => rfl
  | cons a rest =>
    rw [← hl]
    unfold driftDf
    have hne : l ≠ [] := by rw [hl]; exact List.cons_ne_nil a rest
    rw [driftPathColumn_ok l hne hwf]
    have : l.isEmpty = false := by rw [hl]; rfl
    rw [this]
    simp

theorem composeReport_of_parts (jn : String) (ex : Extracts) (now : DateTimeParts)
    (mdf : List (DriftRecord × String)) (resBody : List MdItem)
    (hdf : driftDf ex.managed_drift = Except.ok mdf)
    (hres : resourcesSectionBody
      (if ex.new_resources.length > 0 then process_new_resources ex.new_resources else [])
      (costOptOf ex) = Except.ok resBody) :
    composeReport jn ex now =
      Except.ok
        { title := jn ++ " - State of Scanned Cloud Resources"
          toc := level1Titles
            (introSection jn ++
             securitySection ex.divisions_to_security_scan ++
             costSection (costOptOf ex) ++
             (MdItem.header 1 "Resources Outside of Terraform Control" :: resBody) ++
             driftSection mdf ++
             rootSection (actorOptOf ex) ++
             disclaimerSection now)
          body :=
            introSection jn ++
            securitySection ex.divisions_to_security_scan ++
            costSection (costOptOf ex) ++
            (MdItem.header 1 "Resources Outside of Terraform Control" :: resBody) ++
            driftSection mdf ++
            rootSection (actorOptOf ex) ++
            disclaimerSection now } := by
  unfold composeReport
  rw [hdf]
  simp only []
  rw [hres]

theorem bindOpts_go (opts : List (String × String)) (acc : Option String × Option String)
    (h : ∀ p ∈ opts, p.1 ≠ "-j" ∧ p.1 ≠ "--job_name") :
    (opts.foldl
      (fun acc p =>
        let acc1 :=
          if p.1 = "-i" ∨ p.1 = "--job_unique_id" then (some p.2, acc.2) else acc
        if p.1 = "-j" ∨ p.1 = "--job_name" then (acc1.1, some p.2) else acc1)
      acc).2 = acc.2 := by
  induction opts generalizing acc with
  | nil => rfl
  | cons p rest ih =>
    rw [List.foldl_cons]
    rw [ih _ (fun q hq => h q (List.mem_cons_of_mem p hq))]
    have hp := h p (List.mem_cons_self p rest)
    have hj : ¬(p.1 = "-j" ∨ p.1 = "--job_name") := by
      rintro (h1 | h1)
      · exact hp.1 h1
      · exact hp.2 h1
    by_cases hi : p.1 = "-i" ∨ p.1 = "--job_unique_id" <;> simp [hj, hi]

theorem bindOpts_no_job_name (opts : List (String × String))
    (h : ∀ p ∈ opts, p.1 ≠ "-j" ∧ p.1 ≠ "--job_name") :
    (bindOpts opts).2 = none := by
  unfold bindOpts
  exact bindOpts_go opts (none, none) h

/-! ## Claim theorems -/

/-- C1 (code_bug): on the spec's own scenario — new resources
`\x7b"aws": [\x7b"type": "s3_bucket", "name": "x"\x7d]\x7d` present, cost extract
empty — the spec says the resources section renders a count table with no
cost column and the run completes; the code instead reads the local
`cost_summary_dict_of_dfs`, which was only assigned under
`if divisions_to_cost_estimates:`, so the run raises `UnboundLocalError`
and writes nothing. -/
theorem create_markdown_file_cost_absent_crash :
    create_markdown_file "demo" (okLoads c1Extracts) sampleNow =
      Except.error (RunError.unboundLocal "cost_summary_dict_of_dfs") := by rfl

/-- C2 (counterexample): the heading sequence is not emitted for every
combination of present/empty extracts: with a non-empty new-resources
extract and an empty cost extract the run raises before any section
reaches the sink, so no heading at all is emitted. -/
theorem create_markdown_file_fixed_headings_counterexample :
    create_markdown_file "job" (okLoads c2Extracts) sampleNow =
      Except.error (RunError.unboundLocal "cost_summary_dict_of_dfs") := by rfl

/-- C3: a failed load of any of the five extract files makes the whole run
fail with no report value, and a successful run's single written report has
every section assembled, ending with the disclaimer/timestamp block
(`create_md_file` is the one sink call at the very end). -/
theorem create_markdown_file_single_sink (jn : String) (fs : LoadedFiles)
    (now : DateTimeParts) :
    (∀ e,
      (fs.new_resources = Except.error e ∨
       fs.resources_to_cloud_actions = Except.error e ∨
       fs.divisions_to_cost_estimates = Except.error e ∨
       fs.divisions_to_security_scan = Except.error e ∨
       fs.managed_drift = Except.error e) →
      ∀ rep, create_markdown_file jn fs now ≠ Except.ok rep) ∧
    (∀ rep, create_markdown_file jn fs now = Except.ok rep →
      ∃ pre, rep.body = pre ++ disclaimerSection now) := by
  constructor
  · intro e he rep hok
    unfold create_markdown_file at hok
    cases hl : loadExtracts fs <;> rw [hl] at hok
    · exact Except.noConfusion hok
    case ok ex =>
    obtain ⟨g1, g2, g3, g4, g5⟩ := loadExtracts_ok fs ex hl
    rcases he with h | h | h | h | h
    · rw [h] at g1; exact Except.noConfusion g1
    · rw [h] at g2; exact Except.noConfusion g2
    · rw [h] at g3; exact Except.noConfusion g3
    · rw [h] at g4; exact Except.noConfusion g4
    · rw [h] at g5; exact Except.noConfusion g5
  · intro rep hok
    unfold create_markdown_file at hok
    cases hl : loadExtracts fs <;> rw [hl] at hok
    · exact Except.noConfusion hok
    case ok ex =>
    obtain ⟨mdf, resBody, _, _, hbody⟩ := composeReport_ok_body jn ex now rep hok
    exact ⟨_, hbody⟩

/-- C3 witness: with the first load failing, the run produces no report. -/
theorem create_markdown_file_single_sink_witness :
    create_markdown_file "j" failLoads sampleNow ≠
      Except.ok (reportOf (create_markdown_file "j" failLoads sampleNow)) :=
  (create_markdown_file_single_sink "j" failLoads sampleNow).1
    (RunError.loadError "mappings/new-resources-to-documents.json") (Or.inl rfl) _

/-- C4: for every drift record of a well-formed non-empty extract, the
derived `ResourcePath` is exactly
`<ModuleName> (module) "<ResourceType>" "<ResourceName>"`, and the concrete
instance of the spec evaluates to `vpc (module) "aws_subnet" "public-1"`. -/
theorem drift_resource_path_format (l : List DriftRecord) (hne : l ≠ [])
    (hwf : ∀ r ∈ l, r.ModuleName.isSome ∧ r.ResourceType.isSome ∧ r.ResourceName.isSome) :
    driftPathColumn l = Except.ok (l.map (fun r =>
      r.ModuleName.getD "" ++ " (module) \"" ++ r.ResourceType.getD "" ++ "\" \"" ++
        r.ResourceName.getD "" ++ "\"")) ∧
    resourcePath "vpc" "aws_subnet" "public-1" = "vpc (module) \"aws_subnet\" \"public-1\"" :=
  ⟨driftPathColumn_ok l hne hwf, rfl⟩

/-- C4 witness: the spec's concrete record. -/
theorem drift_resource_path_format_witness :
    driftPathColumn [⟨some "vpc", some "aws_subnet", some "public-1"⟩] =
      Except.ok ["vpc (module) \"aws_subnet\" \"public-1\""] :=
  ((drift_resource_path_format [⟨some "vpc", some "aws_subnet", some "public-1"⟩]
    (by decide) (by decide)).1).trans (by rfl)

/-- C6: a drift record missing `ModuleName`, `ResourceType` or
`ResourceName` makes the run fail (pandas raises `KeyError` or `TypeError`
during the `ResourcePath` concatenation): the record is never silently
skipped into a report. -/
theorem drift_missing_field_propagates (jn : String) (fs : LoadedFiles)
    (now : DateTimeParts) (md : List DriftRecord) (r : DriftRecord)
    (hmd : fs.managed_drift = Except.ok md) (hr : r ∈ md)
    (hbad : r.ModuleName = none ∨ r.ResourceType = none ∨ r.ResourceName = none) :
    ∀ rep, create_markdown_file jn fs now ≠ Except.ok rep := by
  intro rep hok
  unfold create_markdown_file at hok
  cases hl : loadExtracts fs <;> rw [hl] at hok
  · exact Except.noConfusion hok
  case ok ex =>
  have h5 := (loadExtracts_ok fs ex hl).2.2.2.2
  rw [hmd] at h5
  injection h5 with h5
  have hrex : r ∈ ex.managed_drift := h5 ▸ hr
  obtain ⟨e, he⟩ := driftPathColumn_missing_field ex.managed_drift r hrex hbad
  have hne : ex.managed_drift.isEmpty = false := by
    cases hx : ex.managed_drift with
    | nil => rw [hx] at hrex; cases hrex
    | cons a t => rfl
  have hdf : driftDf ex.managed_drift = Except.error e := by
    unfold driftDf
    simp [hne, he]
  have hok2 : composeReport jn ex now = Except.ok rep := hok
  unfold composeReport at hok2
  rw [hdf] at hok2
  exact Except.noConfusion hok2

/-- C6 witness: a concrete record lacking `ResourceType`. -/
theorem drift_missing_field_propagates_witness :
    create_markdown_file "j"
      (okLoads ⟨[], [], [], [], [⟨some "vpc", none, some "public-1"⟩]⟩) sampleNow ≠
      Except.ok (reportOf (create_markdown_file "j"
        (okLoads ⟨[], [], [], [], [⟨some "vpc", none, some "public-1"⟩]⟩) sampleNow)) :=
  drift_missing_field_propagates "j"
    (okLoads ⟨[], [], [], [], [⟨some "vpc", none, some "public-1"⟩]⟩) sampleNow
    [⟨some "vpc", none, some "public-1"⟩] ⟨some "vpc", none, some "public-1"⟩
    rfl (by simp) (Or.inr (Or.inl rfl)) _

/-- C7: when no `-j`/`--job_name` option was parsed, the Python local
`job_name` is never bound, so the `create_markdown_file(job_name=job_name, ...)`
reference raises `NameError`; the top-level handler wraps it into the
single message `Error: ...` and the process aborts with no report
written. -/
theorem main_block_missing_job_name (opts : List (String × String))
    (fs : LoadedFiles) (now : DateTimeParts)
    (h : ∀ p ∈ opts, p.1 ≠ "-j" ∧ p.1 ≠ "--job_name") :
    main_block opts fs now = Except.error (wrapError (RunError.nameError "job_name")) ∧
    ∀ rep, main_block opts fs now ≠ Except.ok rep := by
  have hb := bindOpts_no_job_name opts h
  constructor
  · unfold main_block
    rw [hb]
  · intro rep hok
    unfold main_block at hok
    rw [hb] at hok
    exact Except.noConfusion hok

/-- C7 witness: only `-i` given. -/
theorem main_block_missing_job_name_witness :
    main_block [("-i", "123")] (okLoads emptyExtracts) sampleNow =
      Except.error (wrapError (RunError.nameError "job_name")) :=
  (main_block_missing_job_name [("-i", "123")] (okLoads emptyExtracts) sampleNow
    (by decide)).1

/-- C8: every successfully written report contains the generation
timestamp line, and its time portion matches `HH:MM UTC on YYYY-MM-DD`
exactly (two digits, colon, two digits, the literal ` UTC on `, then
year-month-day). -/
theorem report_timestamp_format (jn : String) (fs : LoadedFiles) (now : DateTimeParts)
    (rep : Report) (h : create_markdown_file jn fs now = Except.ok rep) :
    MdItem.line ("Created by Cloud Concierge at " ++ strftimeReport now) ∈ rep.body ∧
    matchesTimestampFormat (strftimeReport now) = true := by
  constructor
  · unfold create_markdown_file at h
    cases hl : loadExtracts fs <;> rw [hl] at h
    · exact Except.noConfusion h
    case ok ex =>
    obtain ⟨mdf, resBody, _, _, hbody⟩ := composeReport_ok_body jn ex now rep h
    rw [hbody]
    simp [disclaimerSection, List.mem_append]
  · exact strftimeReport_matches now

/-- C8 witness: the all-empty run. -/
theorem report_timestamp_format_witness :
    MdItem.line ("Created by Cloud Concierge at " ++ strftimeReport sampleNow) ∈
      emptyRunReport.body ∧
    matchesTimestampFormat (strftimeReport sampleNow) = true :=
  report_timestamp_format "j" (okLoads emptyExtracts) sampleNow emptyRunReport (by rfl)

/-- C9: the introduction body of every successfully written report — in
particular one whose extracts are all empty — contains the unconditional
sentence claiming at least one resource drifted or is outside Terraform
control. -/
theorem intro_section_unconditional (jn : String) (fs : LoadedFiles)
    (now : DateTimeParts) (rep : Report)
    (h : create_markdown_file jn fs now = Except.ok rep) :
    MdItem.line (introLine jn) ∈ rep.body ∧
    ∃ pre post, introLine jn =
      pre ++
        ("at least one resource was identified to have drifted or be outside of Terraform control" ++
          post) := by
  constructor
  · unfold create_markdown_file at h
    cases hl : loadExtracts fs <;> rw [hl] at h
    · exact Except.noConfusion h
    case ok ex =>
    obtain ⟨mdf, resBody, _, _, hbody⟩ := composeReport_ok_body jn ex now rep h
    rw [hbody]
    simp [introSection, List.mem_append]
  · refine ⟨"Your job, titled " ++ jn ++ ", has run. Of the resources the job scans, ",
      ". While code has been generated of the Terraform code and corresponding import statements needed to bring these resources under Terraform control, below you will find a summary of the gaps identified in your current IaC posture.", ?_⟩
    rw [String.append_assoc]
    rfl

/-- C9 witness: the all-empty run still contains the sentence. -/
theorem intro_section_unconditional_witness :
    MdItem.line (introLine "j") ∈ emptyRunReport.body ∧
    ∃ pre post, introLine "j" =
      pre ++
        ("at least one resource was identified to have drifted or be outside of Terraform control" ++
          post) :=
  intro_section_unconditional "j" (okLoads emptyExtracts) sampleNow emptyRunReport (by rfl)

/-- C10: the report depends only on the bound `job_name`; two invocations
whose parsed options bind the same `job_name` — in particular two that
differ only in `-i`/`--job_unique_id`, or in its complete absence —
produce the same result, since `job_unique_id` is bound by the option loop
but never referenced afterwards. -/
theorem main_block_ignores_job_unique_id (opts1 opts2 : List (String × String))
    (fs : LoadedFiles) (now : DateTimeParts)
    (h : (bindOpts opts1).2 = (bindOpts opts2).2) :
    main_block opts1 fs now = main_block opts2 fs now := by
  unfold main_block
  rw [h]

/-- C10 witness: with and without `-i`. -/
theorem main_block_ignores_job_unique_id_witness :
    main_block [("-j", "a"), ("-i", "id1")] (okLoads emptyExtracts) sampleNow =
      main_block [("-j", "a")] (okLoads emptyExtracts) sampleNow :=
  main_block_ignores_job_unique_id [("-j", "a"), ("-i", "id1")] [("-j", "a")]
    (okLoads emptyExtracts) sampleNow (by decide)

theorem security_tables_block (d : String) (fl : List (List String))
    (dfs : List (String × List (List String))) (hmem : (d, fl) ∈ dfs) :
    ∃ l1 l2, create_markdown_table_security_scans dfs =
      l1 ++ MdItem.header 2 d :: MdItem.table ["Security Risk"] fl :: l2 := by
  induction dfs with
  | nil => cases hmem
  | cons p rest ih =>
    rcases List.mem_cons.mp hmem with h | h
    · refine ⟨[], create_markdown_table_security_scans rest, ?_⟩
      rw [create_markdown_table_security_scans, ← h]
      rfl
    · obtain ⟨l1, l2, hl⟩ := ih h
      refine ⟨MdItem.header 2 p.1 :: MdItem.table ["Security Risk"] p.2 :: l1, l2, ?_⟩
      rw [create_markdown_table_security_scans, hl]
      rfl

theorem security_tables_header_mem (dfs : List (String × List (List String)))
    (d : String) (h : MdItem.header 2 d ∈ create_markdown_table_security_scans dfs) :
    d ∈ dfs.map Prod.fst := by
  induction dfs with
  | nil => cases h
  | cons p rest ih =>
    rw [create_markdown_table_security_scans] at h
    rcases List.mem_cons.mp h with h1 | h1
    · injection h1 with _ h2
      rw [List.map_cons]
      exact List.mem_cons.mpr (Or.inl h2)
    rcases List.mem_cons.mp h1 with h2 | h2
    · exact absurd h2 (by simp)
    · rw [List.map_cons]
      exact List.mem_cons.mpr (Or.inr (ih h2))

theorem df_dict_keys (scan : List (String × List String)) :
    (division_to_security_scan_to_df_dict scan).map Prod.fst = scan.map Prod.fst := by
  unfold division_to_security_scan_to_df_dict
  rw [List.map_map]
  rfl

/-- C5: the security section renders the single sentence
`Security scan not run.` when the overall division mapping is empty; a
division present with an empty finding list still renders an empty table
under its own level-2 heading; and a division heading appears only for
divisions present in the mapping. -/
theorem security_section_rendering (scan : List (String × List String)) :
    (scan = [] → securitySection scan =
      [MdItem.header 1 "Identified Security Risks", MdItem.line "Security scan not run."]) ∧
    (∀ d fl, (d, fl) ∈ scan → fl = [] →
      ∃ l1 l2, securitySection scan =
        l1 ++ MdItem.header 2 d :: MdItem.table ["Security Risk"] [] :: l2) ∧
    (∀ d, MdItem.header 2 d ∈ securitySection scan → d ∈ scan.map Prod.fst) := by
  refine ⟨?_, ?_, ?_⟩
  · intro h
    subst h
    rfl
  · intro d fl hmem hfl
    subst hfl
    have hne : scan.isEmpty = false := by
      cases hx : scan with
      | nil => rw [hx] at hmem; cases hmem
      | cons a t => rfl
    have hdfs : (d, ([] : List (List String))) ∈ division_to_security_scan_to_df_dict scan := by
      have := List.mem_map_of_mem
        (fun p : String × List String => (p.1, p.2.map (fun f => [f]))) hmem
      simpa [division_to_security_scan_to_df_dict] using this
    obtain ⟨l1, l2, hb⟩ := security_tables_block d [] _ hdfs
    refine ⟨MdItem.header 1 "Identified Security Risks" :: l1, l2, ?_⟩
    unfold securitySection
    simp only [hne, Bool.false_eq_true, if_false]
    rw [hb]
    rfl
  · intro d hmem
    unfold securitySection at hmem
    cases hie : scan.isEmpty with
    | true =>
      have hnil : scan = [] := List.isEmpty_iff.mp hie
      rw [hie] at hmem
      simp at hmem
    | false =>
      rw [hie] at hmem
      simp only [Bool.false_eq_true, if_false] at hmem
      rcases List.mem_cons.mp hmem with h1 | h1
      · exact absurd h1 (by simp)
      · rw [← df_dict_keys scan]
        exact security_tables_header_mem _ d h1

/-- C5 witness: the empty mapping renders the placeholder sentence. -/
theorem security_section_rendering_witness :
    securitySection [] =
      [MdItem.header 1 "Identified Security Risks", MdItem.line "Security scan not run."] :=
  (security_section_rendering []).1 rfl

/-- C2 (amended): for every combination of present/empty well-formed
extracts other than a non-empty new-resources extract combined with an
empty cost extract (where the run instead raises `UnboundLocalError`
before emitting anything — see the counterexample), the run succeeds and
emits the invariant ordered sequence of section headings
(`How to Read this Report`, `Identified Security Risks`,
`Calculable Cloud Costs (Monthly)`, `Resources Outside of Terraform
Control`, `Drifted Resources Managed By Terraform`, `Root Causes of
Drift`, then the level-4 `Disclaimer`), substituting each empty section's
literal placeholder sentence for its table; no heading is omitted. -/
theorem create_markdown_file_fixed_headings (jn : String) (ex : Extracts)
    (now : DateTimeParts)
    (hwf : ∀ r ∈ ex.managed_drift,
      r.ModuleName.isSome ∧ r.ResourceType.isSome ∧ r.ResourceName.isSome)
    (hok : ex.new_resources = [] ∨ ex.divisions_to_cost_estimates ≠ []) :
    ∃ rep, create_markdown_file jn (okLoads ex) now = Except.ok rep ∧
      level1Titles rep.body =
        ["How to Read this Report", "Identified Security Risks",
         "Calculable Cloud Costs (Monthly)", "Resources Outside of Terraform Control",
         "Drifted Resources Managed By Terraform", "Root Causes of Drift"] ∧
      MdItem.header 4 "Disclaimer" ∈ rep.body ∧
      (ex.divisions_to_security_scan = [] →
        MdItem.line "Security scan not run." ∈ rep.body) ∧
      (ex.divisions_to_cost_estimates = [] →
        MdItem.line "Cost estimation not run." ∈ rep.body) ∧
      (ex.new_resources = [] → MdItem.line "No new resources found!" ∈ rep.body) ∧
      (ex.managed_drift = [] →
        MdItem.line "No controlled resources have drifted!" ∈ rep.body) ∧
      (ex.resources_to_cloud_actions = [] →
        MdItem.line "No identified Cloud Actor actions." ∈ rep.body) := by
  have hdf := driftDf_wf ex.managed_drift hwf
  obtain ⟨resBody, hres, hresEmpty, hresL1⟩ :
      ∃ resBody,
        resourcesSectionBody
          (if ex.new_resources.length > 0 then process_new_resources ex.new_resources else [])
          (costOptOf ex) = Except.ok resBody ∧
        (ex.new_resources = [] → resBody = [MdItem.line "No new resources found!"]) ∧
        level1Titles resBody = [] := by
    by_cases hnr : ex.new_resources = []
    · refine ⟨[MdItem.line "No new resources found!"], ?_, fun _ => rfl, rfl⟩
      rw [hnr]
      simp [resourcesSectionBody_empty]
    · have hce : ex.divisions_to_cost_estimates ≠ [] := by
        rcases hok with h | h
        · exact absurd h hnr
        · exact h
      have hceb : ex.divisions_to_cost_estimates.isEmpty = false := by
        cases hc : ex.divisions_to_cost_estimates with
        | nil => exact absurd hc hce
        | cons a t => rfl
      have hcost : costOptOf ex =
          some (process_pricing_data ex.divisions_to_cost_estimates ex.new_resources) := by
        unfold costOptOf
        simp [hceb]
      refine ⟨_, by rw [hcost, resourcesSectionBody_some], fun h => absurd h hnr, ?_⟩
      split
      · exact level1Titles_new_resource_tables _ _
      · rfl
  have hcomp := composeReport_of_parts jn ex now _ resBody hdf hres
  refine ⟨_, hcomp, ?_, ?_, ?_, ?_, ?_, ?_, ?_⟩
  · simp [level1Titles_append, level1Titles_intro, level1Titles_security,
      level1Titles_cost, level1Titles_drift, level1Titles_root, level1Titles_disclaimer,
      level1Titles_cons, isLevel1_header1, hresL1]
  · simp [disclaimerSection, List.mem_append]
  · intro h
    simp [h, securitySection, List.mem_append]
  · intro h
    simp [h, costOptOf, costSection, List.mem_append]
  · intro h
    simp [hresEmpty h, List.mem_append]
  · intro h
    simp [h, driftSection, List.mem_append]
  · intro h
    simp [h, actorOptOf, rootSection, List.mem_append]

/-- C2 (amended) witness: the all-empty combination succeeds with every
heading and every placeholder sentence. -/
theorem create_markdown_file_fixed_headings_witness :
    ∃ rep, create_markdown_file "j" (okLoads emptyExtracts) sampleNow = Except.ok rep ∧
      level1Titles rep.body =
        ["How to Read this Report", "Identified Security Risks",
         "Calculable Cloud Costs (Monthly)", "Resources Outside of Terraform Control",
         "Drifted Resources Managed By Terraform", "Root Causes of Drift"] ∧
      MdItem.header 4 "Disclaimer" ∈ rep.body ∧
      (emptyExtracts.divisions_to_security_scan = [] →
        MdItem.line "Security scan not run." ∈ rep.body) ∧
      (emptyExtracts.divisions_to_cost_estimates = [] →
        MdItem.line "Cost estimation not run." ∈ rep.body) ∧
      (emptyExtracts.new_resources = [] → MdItem.line "No new resources found!" ∈ rep.body) ∧
      (emptyExtracts.managed_drift = [] →
        MdItem.line "No controlled resources have drifted!" ∈ rep.body) ∧
      (emptyExtracts.resources_to_cloud_actions = [] →
        MdItem.line "No identified Cloud Actor actions." ∈ rep.body) :=
  create_markdown_file_fixed_headings "j" emptyExtracts sampleNow
    (by simp [emptyExtracts]) (Or.inl rfl)
